import Mathlib

/-!
# Verification of the hus-sotkanet data-fetch-and-cache layer

A shallow embedding, in Lean 4, of the core of the `hus-sotkanet`
repository: the Sotkanet API client (`src/api/sotkanet_api.py`), the
on-disk TTL cache and data fetcher (`src/data/fetcher.py`), the data
validator (`src/scripts/validate_data.py`), and the batch fetch entry
point.  Python functions are translated into executable Lean
definitions: HTTP traffic is modelled by an oracle `Nat → HttpResult`
consumed request by request, stateful pieces (the cache) by explicit
state passing, wall-clock sleeps by emitted trace actions, and
`pandas` tables by lists of rows with explicit missing values.
-/

set_option maxRecDepth 4000

namespace Sotkanet

/-! ## Values appearing in JSON records and pandas cells

A pandas cell is either missing (`NaN`/`None`, written `null` here), a
number, or a string.  Numbers are modelled as exact rationals. -/

inductive Cell where
  | null
  | num (q : Rat)
  | str (s : String)
deriving DecidableEq, Repr

/-- Digits of a numeric string, most significant first; `none` when a
non-digit character occurs.  An empty list yields `some 0`; callers
guard against the empty case. -/
def digitsVal (cs : List Char) : Option Nat :=
  cs.foldl
    (fun acc c =>
      match acc with
      | none => none
      | some n => if c.isDigit then some (10 * n + (c.toNat - 48)) else none)
    (some 0)

/-- Numeric parsing as performed by `pandas.to_numeric` on a string:
an optional leading minus sign, an integer part, and an optional
fractional part after a single dot.  (Scientific notation and
surrounding whitespace, which the repository's data never contains,
are not modelled.) -/
def parseNumeric (s : String) : Option Rat :=
  let cs := s.data
  let (neg, cs) := match cs with
    | '-' :: rest => (true, rest)
    | _ => (false, cs)
  let intPart := cs.takeWhile (fun c => c ≠ '.')
  let rest := cs.dropWhile (fun c => c ≠ '.')
  let fracPart : Option (List Char) := match rest with
    | [] => some []
    | '.' :: frac => if frac.contains '.' then none else some frac
    | _ => none
  match fracPart with
  | none => none
  | some frac =>
    if intPart.isEmpty ∧ frac.isEmpty then none
    else
      match digitsVal intPart, digitsVal frac with
      | some ip, some fp =>
        let mag : Rat := (ip : Rat) + (fp : Rat) / ((10 : Rat) ^ frac.length)
        some (if neg then -mag else mag)
      | _, _ => none

/-- Model of `pd.to_numeric(·, errors := coerce)` on one cell: numbers pass
through, strings are parsed (unparseable ones become missing), missing
stays missing. -/
def toNumericCell (c : Cell) : Cell :=
  match c with
  | .null => .null
  | .num q => .num q
  | .str s =>
    match parseNumeric s with
    | some q => .num q
    | none => .null

/-- One JSON record returned by the Sotkanet `/json` endpoint, as
consumed by `sotkanet_api.py` and `fetcher.py`.  A field holding
`none` / `.null` models the key being absent from the record. -/
structure ApiRecord where
  region : Option Int
  year : Cell
  gender : Option String
  value : Cell
  absValue : Cell
  indicator : Option Int
deriving DecidableEq, Repr

/-! ## The HTTP world

Each HTTP request made through `requests` either yields a response
with a status code and (for status 200, where the code calls
`response.json()`) a parsed body — `none` modelling a body that is not
valid JSON — or raises one of the `requests` exceptions handled by the
client. -/

inductive HttpResult where
  | resp (code : Nat) (body : Option (List ApiRecord))
  | timeout
  | connError
  | reqError
deriving DecidableEq, Repr

/-- Observable side effects of the client, in order: an HTTP GET
(carrying the `years` and `genders` query parameters it repeats in the
URL) or a `time.sleep` of the given number of milliseconds. -/
inductive Action where
  | request (years : List Int) (genders : List String)
  | sleepMs (ms : Nat)
deriving DecidableEq, Repr

def isRequestAct (a : Action) : Bool :=
  match a with
  | .request _ _ => true
  | _ => false

def isSleepAct (a : Action) : Bool :=
  match a with
  | .sleepMs _ => true
  | _ => false

def countRequests (tr : List Action) : Nat := tr.countP isRequestAct

def countSleeps (tr : List Action) : Nat := tr.countP isSleepAct

/-- The Python value bound to the `region_id` parameter of
`get_indicator_data`.  Besides `None` and an integer it can be a list
of integers, because `batch_fetch` passes its `years` list
positionally into this parameter. -/
inductive RegionParam where
  | pyNone
  | pyInt (n : Int)
  | pyIntList (l : List Int)
deriving DecidableEq, Repr

/-- Python `item.get(region) == region_id`: comparing a record's
region field (`None` when the key is absent) with the `region_id`
value.  An integer never equals a list, and `None` equals neither. -/
def pyRegionEq (r : Option Int) (p : RegionParam) : Bool :=
  match r, p with
  | some n, .pyInt m => n = m
  | none, .pyInt _ => false
  | _, .pyIntList _ => false
  | _, .pyNone => false

/-- Constant `DEFAULT_YEARS = list(range(2018, 2024))` from `config/settings.py`. -/
def DEFAULT_YEARS : List Int := [2018, 2019, 2020, 2021, 2022, 2023]

/-- Python `str.lower()` on one character, for the ASCII range the
gender names live in. -/
def charLower (c : Char) : Char :=
  if 65 ≤ c.toNat ∧ c.toNat ≤ 90 then Char.ofNat (c.toNat + 32) else c

/-- Python `str.lower()` (ASCII). -/
def pyLower (s : String) : String := String.mk (s.data.map charLower)

/-- The `gender_map` of `sotkanet_api.py`, applied to the lowercased
gender name; unknown names pass through unchanged. -/
def genderMapped (g : String) : String :=
  let lg := pyLower g
  if lg = "male" then "male"
  else if lg = "female" then "female"
  else if lg = "total" then "total"
  else if lg = "m" then "male"
  else if lg = "f" then "female"
  else if lg = "t" then "total"
  else g

/-- Region filtering as on the HTTP 200 path of `get_indicator_data`
and `_fetch_years_individually`: when `region_id` is not `None`, keep
the rows whose `region` equals it; otherwise return all rows. -/
def regionFilter (region : RegionParam) (data : List ApiRecord) : List ApiRecord :=
  match region with
  | .pyNone => data
  | _ => data.filter (fun r => pyRegionEq r.region region)

/-- Model of `SotkanetAPI._fetch_years_individually`, iterating over the
year × gender pairs.  Each pair issues exactly one request.  A 200
response with valid JSON contributes its region-filtered rows and is
followed by `time.sleep(0.1)`; a non-200 response contributes nothing
but still sleeps; a raised exception (timeout, connection error,
other request error, or invalid JSON from `response.json()`) is
caught by the bare `except`, which `continue`s past the sleep. -/
def fetchPairs (region : RegionParam) (oracle : Nat → HttpResult) :
    List (Int × String) → Nat → List ApiRecord × List Action × Nat
  | [], i => ([], [], i)
  | (y, g) :: rest, i =>
    match oracle i with
    | .resp code body =>
      if code = 200 then
        match body with
        | some data =>
          let (d, tr, i') := fetchPairs region oracle rest (i + 1)
          (regionFilter region data ++ d, .request [y] [g] :: .sleepMs 100 :: tr, i')
        | none =>
          let (d, tr, i') := fetchPairs region oracle rest (i + 1)
          (d, .request [y] [g] :: tr, i')
      else
        let (d, tr, i') := fetchPairs region oracle rest (i + 1)
        (d, .request [y] [g] :: .sleepMs 100 :: tr, i')
    | _ =>
      let (d, tr, i') := fetchPairs region oracle rest (i + 1)
      (d, .request [y] [g] :: tr, i')

/-- The year × gender pairs walked by `_fetch_years_individually`,
with the gender already mapped through `gender_map` as in the URL it
builds. -/
def yearGenderPairs (years : List Int) (genders : List String) : List (Int × String) :=
  years.flatMap (fun y => genders.map (fun g => (y, genderMapped g)))

/-- The `while retries < max_retries` loop of `get_indicator_data`,
with `fuel = max_retries - retries`.  Status handling in source
order: 200 (filter and return; invalid JSON raises and the handler
returns `[]`), 404 (return `[]`), 403 (fall back to
`_fetch_years_individually`), 429 (sleep `(retries+1)*2` seconds and
retry), any other status (return `[]`).  A timeout retries after a 1 s
sleep, a connection error after a 2 s sleep (the sleep is skipped when
the budget is exhausted), and any other request error returns `[]`.
Falling out of the loop returns `[]`. -/
def getDataLoop (region : RegionParam) (reqYears : List Int) (reqGenders : List String)
    (years : List Int) (genders : List String)
    (oracle : Nat → HttpResult) (maxRetries : Nat) :
    Nat → Nat → Nat → List ApiRecord × List Action × Nat
  | 0, _, i => ([], [], i)
  | fuel + 1, retries, i =>
    let mainReq : Action := .request reqYears reqGenders
    match oracle i with
    | .resp code body =>
      if code = 200 then
        match body with
        | some data => (regionFilter region data, [mainReq], i + 1)
        | none => ([], [mainReq], i + 1)
      else if code = 404 then ([], [mainReq], i + 1)
      else if code = 403 then
        let (d, tr, i') := fetchPairs region oracle (yearGenderPairs years genders) (i + 1)
        (d, mainReq :: tr, i')
      else if code = 429 then
        let (d, tr, i') :=
          getDataLoop region reqYears reqGenders years genders oracle maxRetries
            fuel (retries + 1) (i + 1)
        (d, mainReq :: .sleepMs ((retries + 1) * 2000) :: tr, i')
      else ([], [mainReq], i + 1)
    | .timeout =>
      let pause : List Action := if retries + 1 < maxRetries then [.sleepMs 1000] else []
      let (d, tr, i') :=
        getDataLoop region reqYears reqGenders years genders oracle maxRetries
          fuel (retries + 1) (i + 1)
      (d, mainReq :: pause ++ tr, i')
    | .connError =>
      let pause : List Action := if retries + 1 < maxRetries then [.sleepMs 2000] else []
      let (d, tr, i') :=
        getDataLoop region reqYears reqGenders years genders oracle maxRetries
          fuel (retries + 1) (i + 1)
      (d, mainReq :: pause ++ tr, i')
    | .reqError => ([], [mainReq], i + 1)

/-- Model of `SotkanetAPI.get_indicator_data`.  Rejects a non-positive
indicator id, applies the `years or DEFAULT_YEARS`,
`region_id if region_id is not None else self.region_id` and
`genders or [total]` defaults, then runs the retry loop with
`max_retries = 3`.  Returns the data points together with the trace
of requests and sleeps and the index of the next unconsumed oracle
slot. -/
def getIndicatorData (indicatorId : Int) (regionParam : RegionParam)
    (years0 : List Int) (genders0 : List String) (selfRegion : Int)
    (oracle : Nat → HttpResult) (i : Nat) : List ApiRecord × List Action × Nat :=
  if indicatorId ≤ 0 then ([], [], i)
  else
    let years := if years0.isEmpty then DEFAULT_YEARS else years0
    let region := match regionParam with
      | .pyNone => .pyInt selfRegion
      | r => r
    let genders := if genders0.isEmpty then ["total"] else genders0
    getDataLoop region years (genders.map genderMapped) years genders oracle 3 3 0 i

/-! ## MD5, as used by `hashlib.md5(...).hexdigest()`

`DataCache._get_cache_key` hashes the serialized parameters with MD5
and uses the lowercase hex digest as the cache key.  The algorithm
(RFC 1321) is reproduced here over `Nat` with explicit reduction
modulo `2 ^ 32`. -/

def md5K : List Nat :=
  [0xd76aa478, 0xe8c7b756, 0x242070db, 0xc1bdceee,
   0xf57c0faf, 0x4787c62a, 0xa8304613, 0xfd469501,
   0x698098d8, 0x8b44f7af, 0xffff5bb1, 0x895cd7be,
   0x6b901122, 0xfd987193, 0xa679438e, 0x49b40821,
   0xf61e2562, 0xc040b340, 0x265e5a51, 0xe9b6c7aa,
   0xd62f105d, 0x02441453, 0xd8a1e681, 0xe7d3fbc8,
   0x21e1cde6, 0xc33707d6, 0xf4d50d87, 0x455a14ed,
   0xa9e3e905, 0xfcefa3f8, 0x676f02d9, 0x8d2a4c8a,
   0xfffa3942, 0x8771f681, 0x6d9d6122, 0xfde5380c,
   0xa4beea44, 0x4bdecfa9, 0xf6bb4b60, 0xbebfbc70,
   0x289b7ec6, 0xeaa127fa, 0xd4ef3085, 0x04881d05,
   0xd9d4d039, 0xe6db99e5, 0x1fa27cf8, 0xc4ac5665,
   0xf4292244, 0x432aff97, 0xab9423a7, 0xfc93a039,
   0x655b59c3, 0x8f0ccc92, 0xffeff47d, 0x85845dd1,
   0x6fa87e4f, 0xfe2ce6e0, 0xa3014314, 0x4e0811a1,
   0xf7537e82, 0xbd3af235, 0x2ad7d2bb, 0xeb86d391]

def md5S : List Nat :=
  [7, 12, 17, 22, 7, 12, 17, 22, 7, 12, 17, 22, 7, 12, 17, 22,
   5, 9, 14, 20, 5, 9, 14, 20, 5, 9, 14, 20, 5, 9, 14, 20,
   4, 11, 16, 23, 4, 11, 16, 23, 4, 11, 16, 23, 4, 11, 16, 23,
   6, 10, 15, 21, 6, 10, 15, 21, 6, 10, 15, 21, 6, 10, 15, 21]

def w32 : Nat := 4294967296

def rotl32 (c x : Nat) : Nat :=
  ((x <<< c) % w32) ||| (x >>> (32 - c))

def md5MixF (b c d : Nat) : Nat := (b &&& c) ||| ((b ^^^ 0xffffffff) &&& d)

def md5MixG (b c d : Nat) : Nat := (d &&& b) ||| ((d ^^^ 0xffffffff) &&& c)

def md5MixH (b c d : Nat) : Nat := b ^^^ c ^^^ d

def md5MixI (b c d : Nat) : Nat := c ^^^ (b ||| (d ^^^ 0xffffffff))

/-- Little-endian byte decomposition of `val` into `n` bytes. -/
def leBytes (n val : Nat) : List Nat :=
  (List.range n).map (fun j => (val >>> (8 * j)) % 256)

/-- The little-endian 32-bit word starting at the head of `bs`. -/
def leWord (bs : List Nat) : Nat :=
  match bs with
  | b0 :: b1 :: b2 :: b3 :: _ => b0 + 256 * (b1 + 256 * (b2 + 256 * b3))
  | _ => 0

def md5Step (words : List Nat) (st : Nat × Nat × Nat × Nat) (i : Nat) :
    Nat × Nat × Nat × Nat :=
  let (a, b, c, d) := st
  let fv :=
    if i < 16 then md5MixF b c d
    else if i < 32 then md5MixG b c d
    else if i < 48 then md5MixH b c d
    else md5MixI b c d
  let g :=
    if i < 16 then i
    else if i < 32 then (5 * i + 1) % 16
    else if i < 48 then (3 * i + 5) % 16
    else (7 * i) % 16
  let tmp := (a + fv + md5K.getD i 0 + words.getD g 0) % w32
  let b' := (b + rotl32 (md5S.getD i 0) tmp) % w32
  (d, b', b, c)

def md5Block (st : Nat × Nat × Nat × Nat) (block : List Nat) : Nat × Nat × Nat × Nat :=
  let words := (List.range 16).map (fun j => leWord (block.drop (4 * j)))
  let (a, b, c, d) := (List.range 64).foldl (md5Step words) st
  ((st.1 + a) % w32, (st.2.1 + b) % w32, (st.2.2.1 + c) % w32, (st.2.2.2 + d) % w32)

/-- MD5 padding: a `0x80` byte, zeros up to 56 mod 64, then the bit
length as a little-endian 64-bit quantity. -/
def md5Pad (msg : List Nat) : List Nat :=
  let n := msg.length
  let zeros := (120 - ((n + 1) % 64)) % 64
  msg ++ [0x80] ++ List.replicate zeros 0 ++ leBytes 8 (n * 8)

/-- The 16 MD5 digest bytes of a byte message. -/
def md5Bytes (msg : List Nat) : List Nat :=
  let padded := md5Pad msg
  let blocks := (List.range (padded.length / 64)).map
    (fun b => (padded.drop (64 * b)).take 64)
  let (a, b, c, d) :=
    blocks.foldl md5Block (0x67452301, 0xefcdab89, 0x98badcfe, 0x10325476)
  leBytes 4 a ++ leBytes 4 b ++ leBytes 4 c ++ leBytes 4 d

def hexDigit (d : Nat) : Char := "0123456789abcdef".data.getD d '0'

/-- ASCII bytes of a string (all strings serialized by the cache are
ASCII). -/
def strBytes (s : String) : List Nat := s.data.map Char.toNat

/-- Model of `hashlib.md5(s.encode()).hexdigest()`. -/
def md5Hex (s : String) : String :=
  String.mk ((md5Bytes (strBytes s)).flatMap (fun b => [hexDigit (b / 16), hexDigit (b % 16)]))

example : md5Hex "" = "d41d8cd98f00b204e9800998ecf8427e" := by decide

example : md5Hex "abc" = "900150983cd24fb0d6963f7d28e17f72" := by decide

/-! ## `json.dumps(kwargs, sort_keys=True)` and the cache key

The keyword arguments passed to `DataCache._get_cache_key` hold only
integers, strings, and flat lists of either, so JSON values are
modelled with exactly those shapes.  `json.dumps` with its default
separators uses a comma-space between items and a colon-space after
keys, and `sort_keys=True` sorts the dictionary keys (only the keys —
list elements are serialized in their given order). -/

inductive JVal where
  | int (n : Int)
  | str (s : String)
  | intList (l : List Int)
  | strList (l : List String)
deriving DecidableEq, Repr

/-- Serialization of one JSON value.  The strings serialized by the
cache (gender names) contain no characters needing JSON escapes. -/
def serJVal (v : JVal) : String :=
  match v with
  | .int n => toString n
  | .str s => "\x22" ++ s ++ "\x22"
  | .intList l => "[" ++ String.intercalate ", " (l.map toString) ++ "]"
  | .strList l => "[" ++ String.intercalate ", " (l.map (fun s => "\x22" ++ s ++ "\x22")) ++ "]"

/-- Python string comparison (lexicographic by code point), as a
boolean on the underlying character lists. -/
def strLeChars : List Char → List Char → Bool
  | [], _ => true
  | _ :: _, [] => false
  | c :: cs, d :: ds =>
    if c.toNat < d.toNat then true
    else if d.toNat < c.toNat then false
    else strLeChars cs ds

def strLe (s t : String) : Bool := strLeChars s.data t.data

/-- Insertion of a key-value pair into a key-sorted association list
(Python string comparison is by code points). -/
def insByKey (p : String × JVal) : List (String × JVal) → List (String × JVal)
  | [] => [p]
  | q :: qs => if strLe p.1 q.1 then p :: q :: qs else q :: insByKey p qs

/-- The dictionary items sorted by key, as `sort_keys=True` orders
them. -/
def sortByKey (kw : List (String × JVal)) : List (String × JVal) :=
  kw.foldr insByKey []

/-- Model of `json.dumps(kwargs, sort_keys=True)` for a flat keyword dict. -/
def jsonDumpsSorted (kw : List (String × JVal)) : String :=
  "\x7b" ++
    String.intercalate ", "
      ((sortByKey kw).map (fun p => "\x22" ++ p.1 ++ "\x22: " ++ serJVal p.2)) ++
  "\x7d"

/-- Model of `DataCache._get_cache_key`: the MD5 hex digest of the key-sorted
JSON serialization of the keyword arguments. -/
def getCacheKey (kw : List (String × JVal)) : String :=
  md5Hex (jsonDumpsSorted kw)

example :
    jsonDumpsSorted
      [("indicator_id", .int 186), ("years", .intList [2020, 2019]),
       ("genders", .strList ["total", "male"])] =
    "\x7b\x22genders\x22: [\x22total\x22, \x22male\x22], \x22indicator_id\x22: 186, \x22years\x22: [2020, 2019]\x7d" := by
  decide

/-! ## The `DataCache`

Cache entries live in files named after the key; the store is
modelled as an association list from key to entry, and the clock as
an integer count of seconds (the TTL is second-granular).  The
`params` field is pickled alongside the payload exactly as in
`DataCache.set`. -/

structure CacheEntry where
  timestamp : Int
  data : List ApiRecord
  params : List (String × JVal)
deriving DecidableEq, Repr

abbrev CacheState := List (String × CacheEntry)

def lookupEntry (k : String) : CacheState → Option CacheEntry
  | [] => none
  | (k', e) :: rest => if k' = k then some e else lookupEntry k rest

def removeEntry (k : String) : CacheState → CacheState
  | [] => []
  | (k', e) :: rest => if k' = k then removeEntry k rest else (k', e) :: removeEntry k rest

/-- Writing the entry's file: any previous entry under the same key
(same file name) is overwritten. -/
def insertEntry (k : String) (e : CacheEntry) (st : CacheState) : CacheState :=
  (k, e) :: removeEntry k st

/-- Model of `DataCache.get(**kwargs)` at clock `now`.  Returns `None` when
caching is disabled; otherwise an entry is served while
`now - timestamp < ttl` and unlinked (deleted) when found expired.
The updated store is returned alongside the result. -/
def cacheGet (enabled : Bool) (ttl now : Int) (st : CacheState)
    (kw : List (String × JVal)) : Option (List ApiRecord) × CacheState :=
  if !enabled then (none, st)
  else
    let key := getCacheKey kw
    match lookupEntry key st with
    | some e =>
      if now - e.timestamp < ttl then (some e.data, st)
      else (none, removeEntry key st)
    | none => (none, st)

/-- Model of `DataCache.set(data, **kwargs)` at clock `now`: a no-op when
caching is disabled, otherwise stores the payload with the current
timestamp (and the parameters) under the canonical key. -/
def cacheSet (enabled : Bool) (now : Int) (st : CacheState)
    (kw : List (String × JVal)) (data : List ApiRecord) : CacheState :=
  if !enabled then st
  else insertEntry (getCacheKey kw) ⟨now, data, kw⟩ st

/-! ## `SotkanetDataFetcher._prepare_dataframe`

`pd.DataFrame(list-of-dicts)` creates a column for every key supplied
by at least one record; records lacking the key hold `NaN` there.  A
key explicitly bound to JSON `null` (which the API does not produce)
is identified with the key being absent.  The column slice
`df[available_cols]` keeps only the six fields an `ApiRecord` already
carries, so it leaves the modelled rows unchanged. -/

def hasYearCol (rows : List ApiRecord) : Bool := rows.any (fun r => r.year ≠ Cell.null)

def hasValueCol (rows : List ApiRecord) : Bool := rows.any (fun r => r.value ≠ Cell.null)

def hasAbsValueCol (rows : List ApiRecord) : Bool := rows.any (fun r => r.absValue ≠ Cell.null)

def hasGenderCol (rows : List ApiRecord) : Bool := rows.any (fun r => r.gender.isSome)

/-- Strict comparison of (coerced) cells as `sort_values` orders a
numeric column: numbers ascending, missing values last
(`na_position` defaults to `last`). -/
def cellLt (a b : Cell) : Bool :=
  match a, b with
  | .num x, .num y => x < y
  | .num _, _ => true
  | _, _ => false

/-- Gender-column ordering: strings ascending, missing (`NaN`) last. -/
def genderLe (a b : Option String) : Bool :=
  match a, b with
  | some s, some t => strLe s t
  | some _, none => true
  | none, some _ => false
  | none, none => true

/-- Model of `sort_values([year] (+ [gender]))`: lexicographic by year, then by
gender when that column exists. -/
def rowLe (useGender : Bool) (r1 r2 : ApiRecord) : Bool :=
  if cellLt r1.year r2.year then true
  else if cellLt r2.year r1.year then false
  else if useGender then genderLe r1.gender r2.gender else true

def insRow (le : ApiRecord → ApiRecord → Bool) (x : ApiRecord) :
    List ApiRecord → List ApiRecord
  | [] => [x]
  | y :: ys => if le x y then x :: y :: ys else y :: insRow le x ys

def sortRowsBy (le : ApiRecord → ApiRecord → Bool) (rows : List ApiRecord) :
    List ApiRecord :=
  rows.foldr (insRow le) []

/-- The numeric coercion applied to one kept row: `year` and `value`
always, `absValue` only when that column exists in the frame. -/
def coerceRow (absCol : Bool) (r : ApiRecord) : ApiRecord :=
  { r with
    year := toNumericCell r.year,
    value := toNumericCell r.value,
    absValue := if absCol then toNumericCell r.absValue else r.absValue }

/-- Model of `SotkanetDataFetcher._prepare_dataframe`: select the available
columns, drop rows whose `year` or `value` is missing
(`dropna(subset=[year, value])` — raising `KeyError`, modelled as
`none`, when either column does not exist), coerce `year`, `value`
and (when present) `absValue` to numeric with failures becoming
missing, and sort by year then gender.  No rows are dropped after the
coercion. -/
def prepareDataframe (rows : List ApiRecord) : Option (List ApiRecord) :=
  if hasYearCol rows ∧ hasValueCol rows then
    let kept := rows.filter (fun r => r.year ≠ Cell.null ∧ r.value ≠ Cell.null)
    let coerced := kept.map (coerceRow (hasAbsValueCol rows))
    some (sortRowsBy (rowLe (hasGenderCol rows)) coerced)
  else none

/-! ## `SotkanetDataFetcher.fetch_indicator_data`

Modelled with `return_dataframe = True`, the form all claims are
about.  Indicator metadata is reduced to what the function reads:
`none` models an empty (falsy) metadata dict, `some (s?, e?)` a
non-empty one whose `range` dict yields `start = s?` and `end = e?`.
The fetcher's cache is `none` when built with `use_cache=False`.
The result carries the returned table, the cache store afterwards,
and the trace of HTTP activity. -/

inductive PyErr where
  | keyError
deriving DecidableEq, Repr

/-- The outcome of one `fetch_indicator_data` call: the returned
table (or the propagated exception), the cache store afterwards, and
the trace of HTTP activity performed along the way. -/
structure FetchOut where
  table : Except PyErr (List ApiRecord)
  cacheAfter : Option CacheState
  trace : List Action

def FETCHER_DEFAULT_GENDERS : List String := ["male", "female", "total"]

/-- The metadata-range clip of `fetch_indicator_data` (lines
136–144): when the metadata dict is truthy and both `range.start` and
`range.end` are truthy, the requested years restricted to
`[start, end]`; `none` when no clipping applies. -/
def clipYears (md : Option (Option Int × Option Int)) (years1 : List Int) :
    Option (List Int) :=
  match md with
  | some (some s, some e) =>
    if s ≠ 0 ∧ e ≠ 0 then some (years1.filter (fun y => s ≤ y ∧ y ≤ e)) else none
  | _ => none

/-- Model of `SotkanetDataFetcher.fetch_indicator_data` (DataFrame form).
Steps, in source order: apply the years/genders defaults; clip the
requested years to the metadata range when the metadata dict is
truthy and both `range.start` and `range.end` are truthy, returning
an empty frame at once when no requested year survives; consult the
cache (a hit returns `pd.DataFrame(cached)` unprepared); otherwise
call `get_indicator_data` with the fetcher's region, write the result
through to the cache (empty results included), and return the
prepared frame (an empty result returns an empty frame). -/
def fetchIndicatorData (selfRegion : Int) (md : Option (Option Int × Option Int))
    (enabled : Bool) (ttl clock : Int) (cacheOpt : Option CacheState)
    (indicatorId : Int) (years0 : List Int) (genders0 : List String)
    (oracle : Nat → HttpResult) (i : Nat) : FetchOut :=
  let years1 := if years0.isEmpty then DEFAULT_YEARS else years0
  let genders := if genders0.isEmpty then FETCHER_DEFAULT_GENDERS else genders0
  match clipYears md years1 with
  | some [] => ⟨.ok [], cacheOpt, []⟩
  | clip =>
    let years := match clip with
      | some av => if av.length < years1.length then av else years1
      | none => years1
    let kwargs : List (String × JVal) :=
      [("indicator_id", .int indicatorId), ("region_id", .int selfRegion),
       ("years", .intList years), ("genders", .strList genders)]
    let cacheRes : Option (List ApiRecord) × Option CacheState :=
      match cacheOpt with
      | some st =>
        let (r, st') := cacheGet enabled ttl clock st kwargs
        (r, some st')
      | none => (none, none)
    match cacheRes.1 with
    | some cached => ⟨.ok cached, cacheRes.2, []⟩
    | none =>
      let (data, tr, _) :=
        getIndicatorData indicatorId (.pyInt selfRegion) years genders selfRegion oracle i
      let cacheAfter : Option CacheState :=
        match cacheRes.2 with
        | some st => some (cacheSet enabled clock st kwargs data)
        | none => none
      let table : Except PyErr (List ApiRecord) :=
        if data.isEmpty then .ok []
        else
          match prepareDataframe data with
          | some t => .ok t
          | none => .error .keyError
      ⟨table, cacheAfter, tr⟩

/-! ## `DataValidator.check_indicator_data` (`scripts/validate_data.py`) -/

structure VRecord where
  region : Option Int
  year : Option Int
  value : Option Rat
  absValue : Option Rat
deriving DecidableEq, Repr

def insInt (x : Int) : List Int → List Int
  | [] => [x]
  | y :: ys => if x ≤ y then x :: y :: ys else y :: insInt x ys

def sortInts (l : List Int) : List Int := l.foldr insInt []

/-- Python `sorted(set(l))`. -/
def sortedSet (l : List Int) : List Int := sortInts l.dedup

def HUS_REGION_ID : Int := 629

structure VResult where
  indicatorId : Int
  hasData : Bool
  requestedYears : List Int
  availableYears : List Int
  missingYears : List Int
  dataPoints : Nat
  completeness : Rat
  statusStr : String
deriving DecidableEq, Repr

/-- The validation outcome: the success-path record, or the reduced
`status=ERROR` record produced when the request raises. -/
inductive VOut where
  | ok (r : VResult)
  | err (indicatorId : Int) (msg : String)
deriving DecidableEq, Repr

/-- Model of `DataValidator.__init__`: `self.years = years or DEFAULT_YEARS`. -/
def validatorYears (years0 : List Int) : List Int :=
  if years0.isEmpty then DEFAULT_YEARS else years0

/-- Model of `DataValidator.check_indicator_data` given the outcome of the
HTTP request (`.error` models `raise_for_status` or the request
raising).  On success: filter to rows whose region is the HUS id,
collect the distinct truthy years, and report completeness as
`len(available) / len(self.years) * 100` (0 for an empty years
list). -/
def checkIndicatorData (selfYears : List Int) (indicatorId : Int)
    (resp : Except String (List VRecord)) : VOut :=
  match resp with
  | .error msg => .err indicatorId msg
  | .ok data =>
    let husData := data.filter (fun r => r.region = some HUS_REGION_ID)
    let availableYears := sortedSet (husData.filterMap
      (fun r => match r.year with
        | some y => if y ≠ 0 then some y else none
        | none => none))
    let missingYears := sortedSet (selfYears.filter (fun y => !availableYears.contains y))
    .ok
      { indicatorId := indicatorId
        hasData := availableYears.length > 0
        requestedYears := selfYears
        availableYears := availableYears
        missingYears := missingYears
        dataPoints := husData.length
        completeness :=
          if selfYears.isEmpty then 0
          else (availableYears.length : Rat) / (selfYears.length : Rat) * 100
        statusStr := if availableYears.length > 0 then "OK" else "NO_DATA" }

/-! ## `SotkanetAPI.batch_fetch`

`batch_fetch` calls `self.get_indicator_data(ind_id, years,
genders=genders)`.  `get_indicator_data`'s positional parameters are
`(indicator_id, region_id, years, genders)`, so the years list lands
in `region_id` and the `years` parameter keeps its declared default
`[2024]`. -/

structure BatchEntry where
  byYearGender : List (Cell × List (String × (Cell × Cell)))
  statusStr : String
  dataPoints : Nat
deriving DecidableEq, Repr

def setInner (g : String) (v : Cell × Cell) :
    List (String × (Cell × Cell)) → List (String × (Cell × Cell))
  | [] => [(g, v)]
  | (g', v') :: rest => if g' = g then (g, v) :: rest else (g', v') :: setInner g v rest

def setYearGender (y : Cell) (g : String) (v : Cell × Cell) :
    List (Cell × List (String × (Cell × Cell))) →
    List (Cell × List (String × (Cell × Cell)))
  | [] => [(y, [(g, v)])]
  | (y', m) :: rest =>
    if y' = y then (y, setInner g v m) :: rest else (y', m) :: setYearGender y g v rest

/-- Python truthiness of a cell (`if year:`). -/
def cellTruthy (c : Cell) : Bool :=
  match c with
  | .null => false
  | .num q => q ≠ 0
  | .str s => s ≠ ""

/-- Python truthiness of an optional string (`if gender:`). -/
def strTruthy (g : Option String) : Bool :=
  match g with
  | some s => s ≠ ""
  | none => false

/-- The `by_year_gender` nesting built inside `batch_fetch`: rows with
truthy `year` and `gender` are keyed by year then gender, later rows
overwriting earlier ones. -/
def organizeByYearGender (data : List ApiRecord) :
    List (Cell × List (String × (Cell × Cell))) :=
  data.foldl
    (fun acc item =>
      if cellTruthy item.year ∧ strTruthy item.gender then
        setYearGender item.year (item.gender.getD "") (item.value, item.absValue) acc
      else acc)
    []

def batchFetchGo (selfRegion : Int) (years : List Int) (genders : List String)
    (oracle : Nat → HttpResult) : List Int → Nat → List (Int × BatchEntry) × Nat
  | [], i => ([], i)
  | ind :: rest, i =>
    let (data, _, i') :=
      getIndicatorData ind (.pyIntList years) [2024] genders selfRegion oracle i
    let (es, i'') := batchFetchGo selfRegion years genders oracle rest i'
    ((ind, ⟨organizeByYearGender data, "success", data.length⟩) :: es, i'')

/-- Model of `SotkanetAPI.batch_fetch` (ignoring the optional save-to-disk
step): apply the years/genders defaults, then fetch each indicator in
turn — the years list passed positionally into `region_id` — and
record each entry with its organized data and `data_points` count.
`get_indicator_data` never raises in this model, matching the source,
whose every failure path returns a list, so each entry has status
`success`. -/
def batchFetch (selfRegion : Int) (indicatorIds : List Int) (years0 : List Int)
    (genders0 : List String) (oracle : Nat → HttpResult) (i : Nat) :
    List (Int × BatchEntry) × Nat :=
  let years := if years0.isEmpty then DEFAULT_YEARS else years0
  let genders := if genders0.isEmpty then ["total"] else genders0
  batchFetchGo selfRegion years genders oracle indicatorIds i

/-! ## Supporting lemmas -/

theorem pyRegionEq_pyInt_iff (r : Option Int) (m : Int) :
    pyRegionEq r (.pyInt m) = true ↔ r = some m := by
  cases r <;> simp [pyRegionEq]

theorem pyRegionEq_pyIntList (r : Option Int) (l : List Int) :
    pyRegionEq r (.pyIntList l) = false := by
  cases r <;> simp [pyRegionEq]

theorem mem_regionFilter_pyInt {x : ApiRecord} {m : Int} {data : List ApiRecord}
    (hx : x ∈ regionFilter (.pyInt m) data) : x.region = some m := by
  unfold regionFilter at hx
  have := (List.mem_filter.mp hx).2
  exact (pyRegionEq_pyInt_iff x.region m).mp this

theorem regionFilter_pyIntList (l : List Int) (data : List ApiRecord) :
    regionFilter (.pyIntList l) data = [] := by
  unfold regionFilter
  simp [pyRegionEq_pyIntList]

theorem fetchPairs_region {m : Int} {oracle : Nat → HttpResult} :
    ∀ (pairs : List (Int × String)) (i : Nat) (r : ApiRecord),
      r ∈ (fetchPairs (.pyInt m) oracle pairs i).1 → r.region = some m := by
  intro pairs
  induction pairs with
  | nil => intro i r hr; simp [fetchPairs] at hr
  | cons p rest ih =>
    intro i r hr
    obtain ⟨y, g⟩ := p
    cases h : oracle i with
    | resp code body =>
      by_cases hc : code = 200
      · subst hc
        cases body with
        | some data =>
          simp [fetchPairs, h] at hr
          rcases hr with h1 | h2
          · exact mem_regionFilter_pyInt h1
          · exact ih (i + 1) r h2
        | none =>
          simp [fetchPairs, h] at hr
          exact ih (i + 1) r hr
      · simp [fetchPairs, h, hc] at hr
        exact ih (i + 1) r hr
    | timeout =>
      simp [fetchPairs, h] at hr
      exact ih (i + 1) r hr
    | connError =>
      simp [fetchPairs, h] at hr
      exact ih (i + 1) r hr
    | reqError =>
      simp [fetchPairs, h] at hr
      exact ih (i + 1) r hr

theorem getDataLoop_region {m : Int} {reqY : List Int} {reqG : List String}
    {ys : List Int} {gs : List String} {oracle : Nat → HttpResult} {mr : Nat} :
    ∀ (fuel retries i : Nat) (r : ApiRecord),
      r ∈ (getDataLoop (.pyInt m) reqY reqG ys gs oracle mr fuel retries i).1 →
      r.region = some m := by
  intro fuel
  induction fuel with
  | zero => intro retries i r hr; simp [getDataLoop] at hr
  | succ fuel ih =>
    intro retries i r hr
    cases h : oracle i with
    | resp code body =>
      by_cases h200 : code = 200
      · subst h200
        cases body with
        | some data =>
          simp [getDataLoop, h] at hr
          exact mem_regionFilter_pyInt hr
        | none => simp [getDataLoop, h] at hr
      · by_cases h404 : code = 404
        · subst h404; simp [getDataLoop, h] at hr
        · by_cases h403 : code = 403
          · subst h403
            simp [getDataLoop, h] at hr
            exact fetchPairs_region _ _ r hr
          · by_cases h429 : code = 429
            · subst h429
              simp [getDataLoop, h] at hr
              exact ih (retries + 1) (i + 1) r hr
            · simp [getDataLoop, h, h200, h404, h403, h429] at hr
    | timeout =>
      simp [getDataLoop, h] at hr
      exact ih (retries + 1) (i + 1) r hr
    | connError =>
      simp [getDataLoop, h] at hr
      exact ih (retries + 1) (i + 1) r hr
    | reqError => simp [getDataLoop, h] at hr

/-! ## C2 — region filtering invariant -/

/-- C2.  For every fetch through `get_indicator_data` with an integer
`region_id` — on the direct HTTP 200 path, on the 403
per-year/per-gender fallback path, and on every other path — every
returned data point has its `region` field equal to the query's
region id; rows for other regions are discarded before the result is
returned. -/
theorem c2_region_filter_invariant (indicatorId rid selfRegion : Int)
    (years0 : List Int) (genders0 : List String) (oracle : Nat → HttpResult) (i : Nat) :
    ∀ r ∈ (getIndicatorData indicatorId (.pyInt rid) years0 genders0 selfRegion oracle i).1,
      r.region = some rid := by
  intro r hr
  unfold getIndicatorData at hr
  by_cases h0 : indicatorId ≤ 0
  · simp [h0] at hr
  · simp only [h0, if_false] at hr
    exact getDataLoop_region 3 0 i r hr

def rec629 : ApiRecord := ⟨some 629, .num 2020, some "total", .num 5, .null, some 186⟩

def rec700 : ApiRecord := ⟨some 700, .num 2020, some "total", .num 7, .null, some 186⟩

def oC2 : Nat → HttpResult := fun _ => .resp 200 (some [rec629, rec700])

/-- Witness for C2: a raw response holding rows for regions 629 and
700, fetched with `region_id = 629`, yields exactly the 629 rows, and
the theorem applies to the returned row. -/
theorem c2_region_filter_invariant_witness :
    (getIndicatorData 186 (.pyInt 629) [2020] ["total"] 629 oC2 0).1 = [rec629] ∧
    rec629.region = some 629 :=
  ⟨by decide,
   c2_region_filter_invariant 186 629 629 [2020] ["total"] oC2 0 rec629 (by decide)⟩

/-! ## C4 — HTTP 5xx handling

The claim says a 5xx response is retried within the same budget as
timeouts and, after exhaustion, fails with an `HttpError` carrying
the status code.  In the source, any status other than
200/404/403/429 falls into the final `else`, which logs a warning and
returns `[]` at once: no retry and no raised error (the module
defines no `HttpError` type at all). -/

def oC4 : Nat → HttpResult := fun k =>
  if k = 0 then .resp 500 none else .resp 200 (some [rec629])

/-- Counterexample to C4 as stated: with the first response an HTTP
500 and the next attempt guaranteed to succeed with a data point, a
retrying client would issue a second request (and return the data
point); the code issues exactly one request and returns the empty
list, raising nothing. -/
theorem c4_counterexample :
    ¬ 2 ≤ countRequests (getIndicatorData 186 (.pyInt 629) [2020] ["total"] 629 oC4 0).2.1 ∧
    (getIndicatorData 186 (.pyInt 629) [2020] ["total"] 629 oC4 0).1 = [] := by
  decide

/-- C4 as amended.  An HTTP 5xx response (any status other than
200/404/403/429) makes `get_indicator_data` return the empty list
immediately: exactly one request is issued, no retry happens, and no
error is raised. -/
theorem c4_5xx_returns_empty_immediately (indicatorId rid selfRegion : Int)
    (years0 : List Int) (genders0 : List String) (oracle : Nat → HttpResult)
    (i code : Nat) (body : Option (List ApiRecord))
    (h0 : 0 < indicatorId) (h5 : 500 ≤ code) (h6 : code ≤ 599)
    (hresp : oracle i = .resp code body) :
    getIndicatorData indicatorId (.pyInt rid) years0 genders0 selfRegion oracle i =
      ([], [.request (if years0.isEmpty then DEFAULT_YEARS else years0)
              ((if genders0.isEmpty then ["total"] else genders0).map genderMapped)], i + 1) := by
  unfold getIndicatorData
  rw [if_neg (by omega)]
  have hstep : ∀ (ry : List Int) (rg : List String) (ys : List Int) (gs : List String),
      getDataLoop (.pyInt rid) ry rg ys gs oracle 3 3 0 i =
        ([], [.request ry rg], i + 1) := by
    intro ry rg ys gs
    show getDataLoop (.pyInt rid) ry rg ys gs oracle 3 (2 + 1) 0 i = _
    simp only [getDataLoop, hresp]
    rw [if_neg (by omega), if_neg (by omega), if_neg (by omega), if_neg (by omega)]
  exact hstep _ _ _ _

/-- Witness for the amended C4 at a concrete 500 response. -/
theorem c4_5xx_returns_empty_immediately_witness :
    getIndicatorData 186 (.pyInt 629) [2020] ["total"] 629 oC4 0 =
      ([], [.request [2020] ["total"]], 1) := by
  have h := c4_5xx_returns_empty_immediately 186 629 629 [2020] ["total"] oC4 0 500 none
    (by decide) (by decide) (by decide) (by decide)
  simpa [show genderMapped "total" = "total" from by decide] using h

/-! ## C1 — cache-key order invariance

`json.dumps(kwargs, sort_keys=True)` sorts only the dictionary keys;
the `years` and `genders` lists are serialized in their given order,
so reordering them changes the serialization and the MD5 key. -/

/-- The fetcher's cache kwargs with `years = [2020, 2019]` and
`genders = [total, male]`, in the insertion order
`fetch_indicator_data` uses. -/
def kwYearsA : List (String × JVal) :=
  [("indicator_id", .int 186), ("region_id", .int 629),
   ("years", .intList [2020, 2019]), ("genders", .strList ["total", "male"])]

/-- The same query with the years and genders lists reordered:
`years = [2019, 2020]`, `genders = [male, total]`. -/
def kwYearsB : List (String × JVal) :=
  [("indicator_id", .int 186), ("region_id", .int 629),
   ("years", .intList [2019, 2020]), ("genders", .strList ["male", "total"])]

/-- The same parameters as `kwYearsA` but with the keyword arguments
themselves listed in a different order. -/
def kwYearsC : List (String × JVal) :=
  [("years", .intList [2020, 2019]), ("genders", .strList ["total", "male"]),
   ("indicator_id", .int 186), ("region_id", .int 629)]

/-- Counterexample to C1 as stated: the spec's own example
`key(years=[2020,2019], genders=[total,male]) ==
key(years=[2019,2020], genders=[male,total])` is false — the two
lookups compute different MD5 cache keys, because `_get_cache_key`
never sorts the lists before hashing. -/
theorem c1_counterexample : getCacheKey kwYearsA ≠ getCacheKey kwYearsB := by
  decide

/-- C1 as amended.  The cache key is the MD5 of the JSON
serialization with the dictionary keys sorted, so it is invariant
under reordering of the keyword arguments (any two kwargs dicts with
the same key-sorted items give the same key); it is not invariant
under reordering of the `years`/`genders` lists, which are serialized
in their given order. -/
theorem c1_key_invariant_under_kwarg_order (kw1 kw2 : List (String × JVal))
    (h : sortByKey kw1 = sortByKey kw2) : getCacheKey kw1 = getCacheKey kw2 := by
  unfold getCacheKey jsonDumpsSorted
  rw [h]

/-- Witness for the amended C1: listing the same four parameters in a
different kwargs order leaves the key unchanged. -/
theorem c1_key_invariant_under_kwarg_order_witness :
    getCacheKey kwYearsA = getCacheKey kwYearsC :=
  c1_key_invariant_under_kwarg_order kwYearsA kwYearsC (by decide)

/-! ## C5 — cache round-trip and lazy expiry -/

theorem lookupEntry_insertEntry (k : String) (e : CacheEntry) (st : CacheState) :
    lookupEntry k (insertEntry k e st) = some e := by
  simp [insertEntry, lookupEntry]

theorem lookupEntry_removeEntry (k : String) :
    ∀ st : CacheState, lookupEntry k (removeEntry k st) = none := by
  intro st
  induction st with
  | nil => simp [removeEntry, lookupEntry]
  | cons p rest ih =>
    by_cases h : p.1 = k
    · simp [removeEntry, h, ih]
    · simp [removeEntry, lookupEntry, h, ih]

/-- C5.  With caching enabled and a positive TTL, a `set` followed by
a `get` with the same parameters at the same clock returns the stored
payload; once the clock exceeds the stored timestamp plus the TTL,
`get` returns `None` and removes the expired entry from the store in
the same read. -/
theorem c5_cache_roundtrip (kw : List (String × JVal)) (p : List ApiRecord)
    (st : CacheState) (ttl t t' : Int) (httl : 0 < ttl) :
    (cacheGet true ttl t (cacheSet true t st kw p) kw).1 = some p ∧
    (t + ttl < t' →
      (cacheGet true ttl t' (cacheSet true t st kw p) kw).1 = none ∧
      lookupEntry (getCacheKey kw) (cacheGet true ttl t' (cacheSet true t st kw p) kw).2 =
        none) := by
  have hset : cacheSet true t st kw p = insertEntry (getCacheKey kw) ⟨t, p, kw⟩ st := by
    simp [cacheSet]
  constructor
  · simp only [cacheGet, hset, Bool.not_true, Bool.false_eq_true, if_false,
      lookupEntry_insertEntry]
    rw [if_pos (by omega)]
  · intro hexp
    have hlt : ¬ t' - t < ttl := by omega
    constructor
    · simp only [cacheGet, hset, Bool.not_true, Bool.false_eq_true, if_false,
        lookupEntry_insertEntry]
      rw [if_neg hlt]
    · simp only [cacheGet, hset, Bool.not_true, Bool.false_eq_true, if_false,
        lookupEntry_insertEntry]
      rw [if_neg hlt]
      simp only [insertEntry]
      have : removeEntry (getCacheKey kw)
          ((getCacheKey kw, (⟨t, p, kw⟩ : CacheEntry)) :: removeEntry (getCacheKey kw) st) =
          removeEntry (getCacheKey kw) (removeEntry (getCacheKey kw) st) := by
        simp [removeEntry]
      rw [this]
      exact lookupEntry_removeEntry _ _

/-- Witness for C5 at a concrete query: payload stored at clock 0
with TTL 3600 is returned at clock 0 and gone (entry deleted) at
clock 4000. -/
theorem c5_cache_roundtrip_witness :
    (cacheGet true 3600 0 (cacheSet true 0 [] kwYearsA [rec629]) kwYearsA).1 =
      some [rec629] ∧
    (cacheGet true 3600 4000 (cacheSet true 0 [] kwYearsA [rec629]) kwYearsA).1 = none ∧
    lookupEntry (getCacheKey kwYearsA)
      (cacheGet true 3600 4000 (cacheSet true 0 [] kwYearsA [rec629]) kwYearsA).2 = none :=
  ⟨(c5_cache_roundtrip kwYearsA [rec629] [] 3600 0 4000 (by norm_num)).1,
   (c5_cache_roundtrip kwYearsA [rec629] [] 3600 0 4000 (by norm_num)).2 (by norm_num)⟩

/-! ## C3 — HTTP 403 fallback -/

/-- The contribution of the fallback sub-request served by oracle
slot `k`: the region-filtered rows of a 200 response with valid JSON,
and nothing otherwise. -/
def subFetchResult (region : RegionParam) (oracle : Nat → HttpResult) (k : Nat) :
    List ApiRecord :=
  match oracle k with
  | .resp code body =>
    if code = 200 then
      match body with
      | some d => regionFilter region d
      | none => []
    else []
  | _ => []

/-- Whether a fallback sub-request raises inside its `try` block: the
`requests` exceptions do, as does `response.json()` on a 200 response
with an invalid body; a response with any other status raises
nothing. -/
def subRaises (h : HttpResult) : Bool :=
  match h with
  | .resp code body => if code = 200 then body.isNone else false
  | _ => true

/-- Holds (is `true`) when every pair of consecutive requests in the trace has
at least one sleep between them — the formal reading of the claim's
"a ~100ms pause between them". -/
def noAdjacentRequests : List Action → Bool
  | a :: b :: rest => (!(isRequestAct a && isRequestAct b)) && noAdjacentRequests (b :: rest)
  | _ => true

theorem flatMap_map_succ {α : Type} (f : Nat → List α) (l : List Nat) :
    (l.map Nat.succ).flatMap f = l.flatMap (fun k => f (k + 1)) := by
  induction l with
  | nil => simp
  | cons a l ih => simp [ih, Nat.succ_eq_add_one]

theorem range_flatMap_succ {α : Type} (f : Nat → List α) (n : Nat) :
    (List.range (n + 1)).flatMap f = f 0 ++ (List.range n).flatMap (fun k => f (k + 1)) := by
  rw [List.range_succ_eq_map, List.flatMap_cons, flatMap_map_succ]

theorem countP_map_succ (p : Nat → Bool) (l : List Nat) :
    (l.map Nat.succ).countP p = l.countP (fun k => p (k + 1)) := by
  induction l with
  | nil => simp
  | cons a l ih => simp [List.countP_cons, ih, Nat.succ_eq_add_one]

theorem range_countP_succ (p : Nat → Bool) (n : Nat) :
    (List.range (n + 1)).countP p =
      (if p 0 then 1 else 0) + (List.range n).countP (fun k => p (k + 1)) := by
  rw [List.range_succ_eq_map, List.countP_cons, countP_map_succ]
  omega

/-- Structural characterization of one fallback iteration: each pair
consumes one oracle slot, contributes `subFetchResult` rows, and
emits its request followed by the 100 ms sleep exactly when the
iteration does not raise. -/
theorem fetchPairs_cons (region : RegionParam) (oracle : Nat → HttpResult)
    (y : Int) (g : String) (rest : List (Int × String)) (i : Nat) :
    fetchPairs region oracle ((y, g) :: rest) i =
      (subFetchResult region oracle i ++ (fetchPairs region oracle rest (i + 1)).1,
       .request [y] [g] ::
         ((if subRaises (oracle i) then [] else [.sleepMs 100]) ++
          (fetchPairs region oracle rest (i + 1)).2.1),
       (fetchPairs region oracle rest (i + 1)).2.2) := by
  cases h : oracle i with
  | resp code body =>
    by_cases hc : code = 200
    · subst hc
      cases body with
      | some data => simp [fetchPairs, h, subFetchResult, subRaises]
      | none => simp [fetchPairs, h, subFetchResult, subRaises]
    · simp [fetchPairs, h, hc, subFetchResult, subRaises]
  | timeout => simp [fetchPairs, h, subFetchResult, subRaises]
  | connError => simp [fetchPairs, h, subFetchResult, subRaises]
  | reqError => simp [fetchPairs, h, subFetchResult, subRaises]

theorem fetchPairs_count (region : RegionParam) (oracle : Nat → HttpResult) :
    ∀ (pairs : List (Int × String)) (i : Nat),
      countRequests (fetchPairs region oracle pairs i).2.1 = pairs.length := by
  intro pairs
  induction pairs with
  | nil => intro i; simp [fetchPairs, countRequests]
  | cons p rest ih =>
    intro i
    obtain ⟨y, g⟩ := p
    rw [fetchPairs_cons]
    simp only [countRequests, List.countP_cons, List.countP_append, isRequestAct]
    have := ih (i + 1)
    simp only [countRequests] at this
    rw [this]
    cases hsr : subRaises (oracle i) <;> simp [List.countP_cons, isRequestAct]

theorem fetchPairs_data (region : RegionParam) (oracle : Nat → HttpResult) :
    ∀ (pairs : List (Int × String)) (i : Nat),
      (fetchPairs region oracle pairs i).1 =
        (List.range pairs.length).flatMap (fun k => subFetchResult region oracle (i + k)) := by
  intro pairs
  induction pairs with
  | nil => intro i; simp [fetchPairs]
  | cons p rest ih =>
    intro i
    obtain ⟨y, g⟩ := p
    rw [fetchPairs_cons, List.length_cons, range_flatMap_succ]
    have hfun : (fun k => subFetchResult region oracle (i + (k + 1))) =
        (fun k => subFetchResult region oracle (i + 1 + k)) := by
      funext k
      rw [show i + (k + 1) = i + 1 + k from by omega]
    show subFetchResult region oracle i ++ (fetchPairs region oracle rest (i + 1)).1 = _
    rw [ih (i + 1)]
    simp only [Nat.add_zero, hfun]

theorem fetchPairs_sleeps (region : RegionParam) (oracle : Nat → HttpResult) :
    ∀ (pairs : List (Int × String)) (i : Nat),
      countSleeps (fetchPairs region oracle pairs i).2.1 =
        (List.range pairs.length).countP (fun k => !subRaises (oracle (i + k))) := by
  intro pairs
  induction pairs with
  | nil => intro i; simp [fetchPairs, countSleeps]
  | cons p rest ih =>
    intro i
    obtain ⟨y, g⟩ := p
    rw [fetchPairs_cons, List.length_cons, range_countP_succ]
    have hfun : (fun k => !subRaises (oracle (i + (k + 1)))) =
        (fun k => !subRaises (oracle (i + 1 + k))) := by
      funext k
      rw [show i + (k + 1) = i + 1 + k from by omega]
    simp only [Nat.add_zero, hfun]
    rw [← ih (i + 1)]
    simp only [countSleeps, List.countP_cons, List.countP_append]
    by_cases hsr : subRaises (oracle i) = true
    · simp [isSleepAct, hsr]
    · simp only [Bool.not_eq_true] at hsr
      simp [isSleepAct, hsr, List.countP_cons]

theorem yearGenderPairs_length (ys : List Int) (gs : List String) :
    (yearGenderPairs ys gs).length = ys.length * gs.length := by
  unfold yearGenderPairs
  induction ys with
  | nil => simp
  | cons y ys ih =>
    simp only [List.flatMap_cons, List.length_append, List.length_map, ih, List.length_cons]
    ring

def oC3 : Nat → HttpResult := fun k =>
  if k = 0 then .resp 403 none
  else if k = 1 then .connError
  else .resp 200 (some [rec629, rec700])

/-- Counterexample to C3 as stated: with the first response a 403 and
the first fallback sub-request failing with a connection error, the
`continue` in `_fetch_years_individually`'s exception handler skips
the `time.sleep(0.1)`, so the failed sub-request is followed
immediately by the next one with no pause between them: the fallback
part of the trace (everything after the initial batch request)
contains two adjacent requests. -/
theorem c3_counterexample :
    noAdjacentRequests
      ((getIndicatorData 186 (.pyInt 629) [2020, 2021] ["male", "total"] 629 oC3 0).2.1.drop 1) =
      false := by
  decide

/-- C3 as amended.  A call whose initial response is HTTP 403 does
not fail: it issues exactly `|Y| × |G|` sequential sub-requests (one
per year-gender pair, so `1 + |Y| × |G|` requests in total), its
result accumulates, pair by pair, exactly the region-filtered rows of
each sub-request that returns HTTP 200 with valid JSON — a failing
sub-request contributes nothing and is not fatal to the call — and a
~100ms pause follows each sub-request that does not raise (a raising
sub-request is skipped without the pause, so the number of pauses is
the number of non-raising sub-requests). -/
theorem c3_403_fallback (indicatorId rid selfRegion : Int) (years0 : List Int)
    (genders0 : List String) (oracle : Nat → HttpResult) (i : Nat)
    (body : Option (List ApiRecord))
    (h0 : 0 < indicatorId) (hy : years0 ≠ []) (hg : genders0 ≠ [])
    (h403 : oracle i = .resp 403 body) :
    countRequests (getIndicatorData indicatorId (.pyInt rid) years0 genders0 selfRegion oracle i).2.1 =
      1 + years0.length * genders0.length ∧
    (getIndicatorData indicatorId (.pyInt rid) years0 genders0 selfRegion oracle i).1 =
      (List.range (years0.length * genders0.length)).flatMap
        (fun k => subFetchResult (.pyInt rid) oracle (i + 1 + k)) ∧
    countSleeps (getIndicatorData indicatorId (.pyInt rid) years0 genders0 selfRegion oracle i).2.1 =
      (List.range (years0.length * genders0.length)).countP
        (fun k => !subRaises (oracle (i + 1 + k))) := by
  have hyE : years0.isEmpty = false := by simpa using hy
  have hgE : genders0.isEmpty = false := by simpa using hg
  have hred : getIndicatorData indicatorId (.pyInt rid) years0 genders0 selfRegion oracle i =
      ((fetchPairs (.pyInt rid) oracle (yearGenderPairs years0 genders0) (i + 1)).1,
       .request years0 (genders0.map genderMapped) ::
         (fetchPairs (.pyInt rid) oracle (yearGenderPairs years0 genders0) (i + 1)).2.1,
       (fetchPairs (.pyInt rid) oracle (yearGenderPairs years0 genders0) (i + 1)).2.2) := by
    unfold getIndicatorData
    rw [if_neg (by omega)]
    simp only [hyE, hgE, Bool.false_eq_true, if_false]
    show getDataLoop (.pyInt rid) years0 (genders0.map genderMapped) years0 genders0 oracle
        3 (2 + 1) 0 i = _
    simp [getDataLoop, h403]
  rw [hred]
  refine ⟨?_, ?_, ?_⟩
  · simp only [countRequests, List.countP_cons]
    have := fetchPairs_count (.pyInt rid) oracle (yearGenderPairs years0 genders0) (i + 1)
    simp only [countRequests] at this
    rw [this, yearGenderPairs_length]
    simp [isRequestAct]
    omega
  · show (fetchPairs (.pyInt rid) oracle (yearGenderPairs years0 genders0) (i + 1)).1 = _
    rw [fetchPairs_data, yearGenderPairs_length]
  · simp only [countSleeps, List.countP_cons]
    have := fetchPairs_sleeps (.pyInt rid) oracle (yearGenderPairs years0 genders0) (i + 1)
    simp only [countSleeps] at this
    rw [this, yearGenderPairs_length]
    simp [isSleepAct]

/-- Witness for the amended C3 at the concrete 403 scenario: 2 years
and 2 genders give 5 requests in total (1 batch + 4 sub-requests),
the accumulated rows are those of the three successful sub-requests,
and 3 pauses occur (the connection-error sub-request skips its
pause). -/
theorem c3_403_fallback_witness :
    countRequests (getIndicatorData 186 (.pyInt 629) [2020, 2021] ["male", "total"] 629 oC3 0).2.1 =
      1 + 2 * 2 ∧
    (getIndicatorData 186 (.pyInt 629) [2020, 2021] ["male", "total"] 629 oC3 0).1 =
      (List.range (2 * 2)).flatMap (fun k => subFetchResult (.pyInt 629) oC3 (0 + 1 + k)) ∧
    countSleeps (getIndicatorData 186 (.pyInt 629) [2020, 2021] ["male", "total"] 629 oC3 0).2.1 =
      (List.range (2 * 2)).countP (fun k => !subRaises (oC3 (0 + 1 + k))) :=
  c3_403_fallback 186 629 629 [2020, 2021] ["male", "total"] oC3 0 none
    (by decide) (by decide) (by decide) (by decide)

/-! ## C8 — table reshaping -/

theorem mem_insRow (le : ApiRecord → ApiRecord → Bool) (x a : ApiRecord) :
    ∀ l : List ApiRecord, a ∈ insRow le x l ↔ a = x ∨ a ∈ l := by
  intro l
  induction l with
  | nil => simp [insRow]
  | cons y ys ih =>
    by_cases h : le x y = true
    · simp [insRow, h]
    · simp [insRow, h, ih]
      tauto

theorem mem_sortRowsBy (le : ApiRecord → ApiRecord → Bool) (a : ApiRecord) :
    ∀ l : List ApiRecord, a ∈ sortRowsBy le l ↔ a ∈ l := by
  intro l
  induction l with
  | nil => simp [sortRowsBy]
  | cons y ys ih =>
    simp only [sortRowsBy, List.foldr_cons]
    rw [show List.foldr (insRow le) [] ys = sortRowsBy le ys from rfl]
    rw [mem_insRow, ih]
    simp

/-- A cell that is numeric or missing — what a column looks like
after `to_numeric(errors=coerce)`. -/
def numOrNull (c : Cell) : Bool :=
  match c with
  | .str _ => false
  | _ => true

theorem numOrNull_toNumeric (c : Cell) : numOrNull (toNumericCell c) = true := by
  cases c with
  | null => rfl
  | num q => rfl
  | str s =>
    simp only [toNumericCell]
    cases parseNumeric s <;> rfl

/-- A raw row whose `year` and `value` are present but non-numeric
strings: it survives `dropna` and its coercion fails. -/
def rowBad : ApiRecord := ⟨none, .str "abc", some "total", .str "xyz", .null, none⟩

/-- Counterexample to C8 as stated: the claim requires rows whose
numeric coercion fails to be dropped, so `rowBad` should disappear
and every returned row should have numeric `year` and `value`.
Instead the row is retained with `year` and `value` both missing
(`NaN`): `dropna` runs before `to_numeric(errors=coerce)` and no row
is dropped afterwards. -/
theorem c8_counterexample :
    prepareDataframe [rowBad] =
      some [⟨none, .null, some "total", .null, .null, none⟩] := by
  decide

/-- C8 as amended.  Rows with a missing `year` or `value` are dropped
before coercion; `year`, `value` (and `absValue` when that column
exists) are then coerced to numeric with failures becoming missing,
and rows whose coercion fails are retained rather than dropped.
Hence every returned row comes from an input row whose `year` and
`value` were present, equals that row's coercion, and carries
numeric-or-missing (never string) `year` and `value`. -/
theorem c8_prepare_rows (rows out : List ApiRecord)
    (hout : prepareDataframe rows = some out) :
    ∀ r ∈ out, (∃ r0 ∈ rows, r0.year ≠ Cell.null ∧ r0.value ≠ Cell.null ∧
        r = coerceRow (hasAbsValueCol rows) r0) ∧
      numOrNull r.year = true ∧ numOrNull r.value = true := by
  intro r hr
  unfold prepareDataframe at hout
  by_cases hcols : (hasYearCol rows ∧ hasValueCol rows : Prop)
  · rw [if_pos hcols] at hout
    have hout' : out = sortRowsBy (rowLe (hasGenderCol rows))
        ((rows.filter (fun r => r.year ≠ Cell.null ∧ r.value ≠ Cell.null)).map
          (coerceRow (hasAbsValueCol rows))) := by
      exact (Option.some.injEq _ _).mp hout.symm
    rw [hout', mem_sortRowsBy] at hr
    obtain ⟨r0, hr0mem, hr0eq⟩ := List.mem_map.mp hr
    have hfilter := List.mem_filter.mp hr0mem
    have hyv : r0.year ≠ Cell.null ∧ r0.value ≠ Cell.null := by
      have := hfilter.2
      simpa using this
    refine ⟨⟨r0, hfilter.1, hyv.1, hyv.2, hr0eq.symm⟩, ?_, ?_⟩
    · rw [← hr0eq]
      exact numOrNull_toNumeric r0.year
    · rw [← hr0eq]
      exact numOrNull_toNumeric r0.value
  · rw [if_neg hcols] at hout
    exact absurd hout (by simp)

/-- A well-formed row used to witness the amended C8. -/
def rowGood : ApiRecord := ⟨some 629, .num 2020, some "total", .num 5, .null, some 186⟩

/-- Witness for the amended C8: a normal numeric row passes through
`_prepare_dataframe`, and the theorem applies to the resulting row. -/
theorem c8_prepare_rows_witness :
    (∃ r0 ∈ [rowGood], r0.year ≠ Cell.null ∧ r0.value ≠ Cell.null ∧
        rowGood = coerceRow (hasAbsValueCol [rowGood]) r0) ∧
      numOrNull rowGood.year = true ∧ numOrNull rowGood.value = true :=
  c8_prepare_rows [rowGood] [rowGood] (by decide) rowGood (by decide)

/-! ## C9 — validator completeness and missing years -/

theorem mem_insInt (x a : Int) :
    ∀ l : List Int, a ∈ insInt x l ↔ a = x ∨ a ∈ l := by
  intro l
  induction l with
  | nil => simp [insInt]
  | cons y ys ih =>
    by_cases h : x ≤ y
    · simp [insInt, h]
    · simp [insInt, h, ih]
      tauto

theorem mem_sortInts (a : Int) : ∀ l : List Int, a ∈ sortInts l ↔ a ∈ l := by
  intro l
  induction l with
  | nil => simp [sortInts]
  | cons y ys ih =>
    simp only [sortInts, List.foldr_cons]
    rw [show List.foldr insInt [] ys = sortInts ys from rfl]
    rw [mem_insInt, ih]
    simp

theorem mem_sortedSet (a : Int) (l : List Int) : a ∈ sortedSet l ↔ a ∈ l := by
  unfold sortedSet
  rw [mem_sortInts, List.mem_dedup]

/-- C9.  For every success-path validation result: `completeness`
equals `|available_years| / |requested_years| × 100` (0 when the
requested years list is empty), `missing_years` holds exactly the
requested years not among the available years, and `available_years`
holds exactly the nonzero years occurring in rows of the response
whose region is the HUS region id. -/
theorem c9_validator_completeness (selfYears : List Int) (indicatorId : Int)
    (data : List VRecord) (r : VResult)
    (hr : checkIndicatorData selfYears indicatorId (.ok data) = .ok r) :
    r.completeness = (if selfYears.isEmpty then 0
      else (r.availableYears.length : Rat) / (selfYears.length : Rat) * 100) ∧
    (∀ y : Int, y ∈ r.missingYears ↔ (y ∈ selfYears ∧ y ∉ r.availableYears)) ∧
    (∀ y : Int, y ∈ r.availableYears ↔
      (y ≠ 0 ∧ ∃ rec ∈ data, rec.region = some HUS_REGION_ID ∧ rec.year = some y)) := by
  simp only [checkIndicatorData, VOut.ok.injEq] at hr
  subst hr
  refine ⟨rfl, ?_, ?_⟩
  · intro y
    rw [mem_sortedSet, List.mem_filter]
    simp
  · intro y
    rw [mem_sortedSet, List.mem_filterMap]
    constructor
    · rintro ⟨rec, hrec, hy⟩
      have hreg := List.mem_filter.mp hrec
      cases hyr : rec.year with
      | none =>
        rw [hyr] at hy
        exact absurd hy (by simp)
      | some y' =>
        rw [hyr] at hy
        have hy' : (if y' ≠ 0 then some y' else none : Option Int) = some y := hy
        by_cases h0 : y' ≠ 0
        · rw [if_pos h0] at hy'
          cases hy'
          exact ⟨h0, rec, hreg.1, by simpa using hreg.2, hyr⟩
        · rw [if_neg h0] at hy'
          exact absurd hy' (by simp)
    · rintro ⟨h0, rec, hmem, hreg, hyr⟩
      refine ⟨rec, List.mem_filter.mpr ⟨hmem, by simpa using hreg⟩, ?_⟩
      rw [hyr]
      show (if y ≠ 0 then some y else none : Option Int) = some y
      rw [if_pos h0]

def yearsW : List Int := [2018, 2019, 2020, 2021, 2022, 2023]

def dataW : List VRecord :=
  [⟨some 629, some 2020, some 1, none⟩,
   ⟨some 700, some 2019, some 9, none⟩,
   ⟨some 629, some 2021, some 2, none⟩]

def rW : VResult :=
  ⟨186, true, yearsW, [2020, 2021], [2018, 2019, 2022, 2023], 2, 100 / 3, "OK"⟩

/-- Witness for C9: six requested years with two available in the
region-filtered response (the region-700 row for 2019 is discarded)
give completeness 100/3 % — i.e. 33.33…% — and missing years
2018, 2019, 2022, 2023; the theorem applies, e.g. at year 2019. -/
theorem c9_validator_completeness_witness :
    checkIndicatorData yearsW 186 (.ok dataW) = .ok rW ∧
    rW.completeness = 100 / 3 ∧
    (2019 ∈ rW.missingYears ↔ (2019 ∈ yearsW ∧ 2019 ∉ rW.availableYears)) := by
  have haux : checkIndicatorData yearsW 186 (.ok dataW) = .ok rW := by
    simp only [checkIndicatorData, VOut.ok.injEq]
    rw [show rW = ⟨186, true, yearsW, [2020, 2021], [2018, 2019, 2022, 2023], 2,
      100 / 3, "OK"⟩ from rfl]
    simp only [VResult.mk.injEq]
    have hav : sortedSet ((dataW.filter
          (fun r => decide (r.region = some HUS_REGION_ID))).filterMap
        (fun r => match r.year with
          | some y => if y ≠ 0 then some y else none
          | none => none)) = [2020, 2021] := by decide
    refine ⟨trivial, by decide, trivial, by decide, by decide, by decide, ?_, by decide⟩
    rw [hav]
    rw [if_neg (by decide)]
    norm_num [yearsW]
  exact ⟨haux, rfl, (c9_validator_completeness yearsW 186 dataW rW haux).2.1 2019⟩

/-! ## C10 — the batch_fetch region/years parameter swap -/

/-- One loop step: a 200 response with valid JSON returns its
region-filtered rows at once. -/
theorem getDataLoop_200some (region : RegionParam) (ry : List Int) (rg : List String)
    (ys : List Int) (gs : List String) (oracle : Nat → HttpResult)
    (mr fuel retries i : Nat) (d : List ApiRecord)
    (h : oracle i = .resp 200 (some d)) :
    getDataLoop region ry rg ys gs oracle mr (fuel + 1) retries i =
      (regionFilter region d, [.request ry rg], i + 1) := by
  simp [getDataLoop, h]

/-- When `batch_fetch`'s years list lands in the `region_id`
parameter and the HTTP request succeeds, the region filter compares
each record's region with a list and keeps nothing. -/
theorem getIndicatorData_pyIntList_empty (indicatorId : Int) (l : List Int)
    (years0 : List Int) (genders0 : List String) (selfRegion : Int)
    (oracle : Nat → HttpResult) (i : Nat)
    (hok : ∀ k, ∃ body, oracle k = .resp 200 (some body)) :
    (getIndicatorData indicatorId (.pyIntList l) years0 genders0 selfRegion oracle i).1 =
      [] := by
  unfold getIndicatorData
  by_cases h0 : indicatorId ≤ 0
  · simp [h0]
  · simp only [h0, if_false]
    obtain ⟨body, hb⟩ := hok i
    have := getDataLoop_200some (.pyIntList l)
      (if years0.isEmpty then DEFAULT_YEARS else years0)
      ((if genders0.isEmpty then ["total"] else genders0).map genderMapped)
      (if years0.isEmpty then DEFAULT_YEARS else years0)
      (if genders0.isEmpty then ["total"] else genders0) oracle 3 2 0 i body hb
    rw [show (3 : Nat) = 2 + 1 from rfl, this, regionFilter_pyIntList]

/-- C10.  `batch_fetch` calls
`self.get_indicator_data(ind_id, years, genders=genders)`, passing
its years list positionally into the `region_id` parameter (the
`years` parameter keeps its declared default `[2024]`).  For every
batch whose HTTP requests all succeed, the region filter compares
each record's integer region with the years list, never matches, and
every indicator's entry ends up with zero data points. -/
theorem c10_batch_zero_datapoints (selfRegion : Int) (indicatorIds : List Int)
    (years0 : List Int) (genders0 : List String) (oracle : Nat → HttpResult) (i : Nat)
    (hok : ∀ k, ∃ body, oracle k = .resp 200 (some body)) :
    ∀ p ∈ (batchFetch selfRegion indicatorIds years0 genders0 oracle i).1,
      p.2.dataPoints = 0 := by
  unfold batchFetch
  generalize (if years0.isEmpty then DEFAULT_YEARS else years0) = years
  generalize (if genders0.isEmpty then ["total"] else genders0) = genders
  induction indicatorIds generalizing i with
  | nil => intro p hp; simp [batchFetchGo] at hp
  | cons ind rest ih =>
    intro p hp
    simp only [batchFetchGo] at hp
    rcases List.mem_cons.mp hp with hhead | htail
    · subst hhead
      simp only [BatchEntry.dataPoints]
      rw [getIndicatorData_pyIntList_empty ind years [2024] genders selfRegion oracle i hok]
      rfl
    · exact ih _ p htail

def oC10 : Nat → HttpResult := fun _ => .resp 200 (some [rec629])

/-- Witness for C10: a single-indicator batch over years
`[2020, 2021]` whose every request succeeds with a region-629 row
produces an entry with zero data points. -/
theorem c10_batch_zero_datapoints_witness :
    (batchFetch 629 [186] [2020, 2021] ["total"] oC10 0).1 =
      [(186, ⟨[], "success", 0⟩)] ∧
    (186, (⟨[], "success", 0⟩ : BatchEntry)).2.dataPoints = 0 :=
  ⟨by decide,
   c10_batch_zero_datapoints 629 [186] [2020, 2021] ["total"] oC10 0
     (fun _ => ⟨[rec629], rfl⟩) (186, ⟨[], "success", 0⟩) (by decide)⟩

/-! ## C7 — fetcher degrades every client failure to an empty table -/

theorem fetchPairs_fail_empty {oracle : Nat → HttpResult}
    (hfail : ∀ k b, oracle k ≠ .resp 200 (some b)) (region : RegionParam) :
    ∀ (pairs : List (Int × String)) (i : Nat),
      (fetchPairs region oracle pairs i).1 = [] := by
  intro pairs
  induction pairs with
  | nil => intro i; simp [fetchPairs]
  | cons p rest ih =>
    intro i
    obtain ⟨y, g⟩ := p
    cases h : oracle i with
    | resp code body =>
      by_cases hc : code = 200
      · subst hc
        cases body with
        | some d => exact absurd h (hfail i d)
        | none => simp [fetchPairs, h, ih]
      · simp [fetchPairs, h, hc, ih]
    | timeout => simp [fetchPairs, h, ih]
    | connError => simp [fetchPairs, h, ih]
    | reqError => simp [fetchPairs, h, ih]

theorem getDataLoop_fail_empty {oracle : Nat → HttpResult}
    (hfail : ∀ k b, oracle k ≠ .resp 200 (some b)) (region : RegionParam)
    (ry : List Int) (rg : List String) (ys : List Int) (gs : List String) (mr : Nat) :
    ∀ (fuel retries i : Nat),
      (getDataLoop region ry rg ys gs oracle mr fuel retries i).1 = [] := by
  intro fuel
  induction fuel with
  | zero => intro retries i; simp [getDataLoop]
  | succ fuel ih =>
    intro retries i
    cases h : oracle i with
    | resp code body =>
      by_cases hc : code = 200
      · subst hc
        cases body with
        | some d => exact absurd h (hfail i d)
        | none => simp [getDataLoop, h]
      · by_cases h404 : code = 404
        · subst h404; simp [getDataLoop, h]
        · by_cases h403 : code = 403
          · subst h403
            simp [getDataLoop, h, fetchPairs_fail_empty hfail]
          · by_cases h429 : code = 429
            · subst h429; simp [getDataLoop, h, ih]
            · simp [getDataLoop, h, hc, h404, h403, h429]
    | timeout => simp [getDataLoop, h, ih]
    | connError => simp [getDataLoop, h, ih]
    | reqError => simp [getDataLoop, h]

theorem getIndicatorData_fail_empty {oracle : Nat → HttpResult}
    (hfail : ∀ k b, oracle k ≠ .resp 200 (some b)) (indicatorId : Int)
    (regionParam : RegionParam) (years0 : List Int) (genders0 : List String)
    (selfRegion : Int) (i : Nat) :
    (getIndicatorData indicatorId regionParam years0 genders0 selfRegion oracle i).1 = [] := by
  unfold getIndicatorData
  by_cases h0 : indicatorId ≤ 0
  · simp [h0]
  · simp only [h0, if_false]
    exact getDataLoop_fail_empty hfail _ _ _ _ _ _ 3 0 i

theorem cacheGet_nil (enabled : Bool) (ttl now : Int) (kw : List (String × JVal)) :
    cacheGet enabled ttl now [] kw = (none, []) := by
  cases enabled <;> simp [cacheGet, lookupEntry]

/-- C7.  A `fetch_indicator_data` call that reaches the client (here:
with no cache, or with an empty cache store) and whose every HTTP
attempt fails — timeouts, connection errors, other request errors,
non-success statuses, or invalid JSON — does not raise: the client
returns no rows and the fetcher returns an empty table. -/
theorem c7_client_failure_degrades (selfRegion : Int)
    (md : Option (Option Int × Option Int)) (enabled : Bool) (ttl clock : Int)
    (cacheOpt : Option CacheState) (indicatorId : Int) (years0 : List Int)
    (genders0 : List String) (oracle : Nat → HttpResult) (i : Nat)
    (hcache : cacheOpt = none ∨ cacheOpt = some ([] : CacheState))
    (hfail : ∀ k b, oracle k ≠ HttpResult.resp 200 (some b)) :
    (fetchIndicatorData selfRegion md enabled ttl clock cacheOpt indicatorId years0
      genders0 oracle i).table = .ok [] := by
  simp only [fetchIndicatorData]
  rcases hclip : clipYears md (if years0.isEmpty then DEFAULT_YEARS else years0) with _ | av
  · rcases hcache with rfl | rfl
    · simp [getIndicatorData_fail_empty hfail]
    · simp [cacheGet_nil, getIndicatorData_fail_empty hfail]
  · cases av with
    | nil => rfl
    | cons a l =>
      rcases hcache with rfl | rfl
      · simp [getIndicatorData_fail_empty hfail]
      · simp [cacheGet_nil, getIndicatorData_fail_empty hfail]

/-- Witness for C7: with metadata absent, no cache, and every request
timing out, the fetcher returns an empty table. -/
theorem c7_client_failure_degrades_witness :
    (fetchIndicatorData 629 none true 3600 0 none 186 [2020, 2021] []
      (fun _ => .timeout) 0).table = .ok [] :=
  c7_client_failure_degrades 629 none true 3600 0 none 186 [2020, 2021] []
    (fun _ => .timeout) 0 (Or.inl rfl) (fun _ _ h => nomatch h)

/-! ## C6 — metadata-driven year clipping and empty-range short-circuit -/

theorem filter_eq_self_of_length {α : Type} (p : α → Bool) :
    ∀ l : List α, (l.filter p).length = l.length → l.filter p = l := by
  intro l
  induction l with
  | nil => simp
  | cons a l ih =>
    intro h
    rw [List.filter_cons] at h ⊢
    by_cases hp : p a = true
    · rw [if_pos hp] at h ⊢
      simp only [List.length_cons] at h
      rw [ih (by omega)]
    · rw [if_neg hp] at h ⊢
      simp only [List.length_cons] at h
      have := l.length_filter_le p
      exact absurd h (by omega)

/-- Every iteration of the retry loop begins by issuing the main
batch request, so a run with fuel left starts its trace with it. -/
theorem getDataLoop_trace_head (region : RegionParam) (ry : List Int) (rg : List String)
    (ys : List Int) (gs : List String) (oracle : Nat → HttpResult)
    (mr fuel retries i : Nat) :
    ((getDataLoop region ry rg ys gs oracle mr (fuel + 1) retries i).2.1).head? =
      some (.request ry rg) := by
  cases h : oracle i with
  | resp code body =>
    simp only [getDataLoop, h]
    split_ifs <;> cases body <;> simp
  | timeout => simp [getDataLoop, h]
  | connError => simp [getDataLoop, h]
  | reqError => simp [getDataLoop, h]

/-- C6.  When the indicator's metadata declares a (truthy) data range
`[s, e]`: if no requested year lies in the range, the call returns an
empty table immediately — the cache untouched and zero network
requests issued; otherwise the requested years are clipped to the
range, and the query the client sends (the first request of the
trace, issued on a cache miss) carries exactly the clipped years. -/
theorem c6_metadata_year_clipping (selfRegion s e : Int) (enabled : Bool)
    (ttl clock : Int) (cacheOpt : Option CacheState) (indicatorId : Int)
    (years0 : List Int) (genders0 : List String) (oracle : Nat → HttpResult) (i : Nat)
    (hs : s ≠ 0) (he : e ≠ 0) (hy : years0 ≠ []) :
    (years0.filter (fun y => s ≤ y ∧ y ≤ e) = [] →
      fetchIndicatorData selfRegion (some (some s, some e)) enabled ttl clock cacheOpt
        indicatorId years0 genders0 oracle i = ⟨.ok [], cacheOpt, []⟩) ∧
    (years0.filter (fun y => s ≤ y ∧ y ≤ e) ≠ [] → 0 < indicatorId →
      (fetchIndicatorData selfRegion (some (some s, some e)) enabled ttl clock none
          indicatorId years0 genders0 oracle i).trace.head? =
        some (.request (years0.filter (fun y => s ≤ y ∧ y ≤ e))
          ((if genders0.isEmpty then FETCHER_DEFAULT_GENDERS else genders0).map
            genderMapped))) := by
  have hyE : years0.isEmpty = false := by simpa using hy
  have hclip : clipYears (some (some s, some e)) years0 =
      some (years0.filter (fun y => s ≤ y ∧ y ≤ e)) := by
    simp [clipYears, hs, he]
  constructor
  · intro hempty
    unfold fetchIndicatorData
    simp only [hyE, Bool.false_eq_true, if_false, hclip, hempty]
  · intro hne h0
    unfold fetchIndicatorData
    simp only [hyE, Bool.false_eq_true, if_false, hclip]
    have hyears : (if (years0.filter (fun y => s ≤ y ∧ y ≤ e)).length < years0.length
          then years0.filter (fun y => s ≤ y ∧ y ≤ e) else years0) =
        years0.filter (fun y => s ≤ y ∧ y ≤ e) := by
      by_cases hlen : (years0.filter (fun y => s ≤ y ∧ y ≤ e)).length < years0.length
      · rw [if_pos hlen]
      · rw [if_neg hlen]
        have hle := years0.length_filter_le (fun y => decide (s ≤ y ∧ y ≤ e))
        exact (filter_eq_self_of_length _ years0 (by omega)).symm
    cases hfa : years0.filter (fun y => s ≤ y ∧ y ≤ e) with
    | nil => exact absurd hfa hne
    | cons a l =>
      rw [hfa] at hyears
      simp only [hfa, hyears]
      unfold getIndicatorData
      rw [if_neg (by omega)]
      simp only [List.isEmpty_cons, Bool.false_eq_true, if_false]
      have hgE : ((if genders0.isEmpty then FETCHER_DEFAULT_GENDERS else genders0)).isEmpty
          = false := by
        cases genders0 <;> simp [FETCHER_DEFAULT_GENDERS]
      simp only [hgE, Bool.false_eq_true, if_false]
      exact getDataLoop_trace_head (.pyInt selfRegion) (a :: l) _ (a :: l) _ oracle 3 2 0 i

def oC6 : Nat → HttpResult := fun _ => .timeout

/-- Witness for C6 (the empty-intersection branch): metadata range
[2010, 2015] with requested years [2020, 2021] returns an empty table
at once, with the cache untouched and an empty trace. -/
theorem c6_metadata_year_clipping_witness :
    fetchIndicatorData 629 (some (some 2010, some 2015)) true 3600 0 none 186
      [2020, 2021] [] oC6 0 = ⟨.ok [], none, []⟩ :=
  (c6_metadata_year_clipping 629 2010 2015 true 3600 0 none 186 [2020, 2021] [] oC6 0
    (by decide) (by decide) (by decide)).1 (by decide)

end Sotkanet
